import Mathlib

/-!
Verification of the flood-aware routing core of the flood-watch-ai
repository (phase4_routing): the risk tier function, the road risk
engine, the in-memory flood prediction store, and the routing
orchestrator.

Modelling conventions:
  * Python floats are modelled as rationals (`ℚ`); `math.inf` is the
    top element of `WithTop ℚ`.
  * Python `datetime` values are modelled by `PyTime`: an integer UTC
    instant tagged naive or aware.  Comparing a naive value with an
    aware one raises `TypeError` in Python, which the model surfaces
    as an `Except` error.
  * The standard library function `datetime.fromisoformat` (applied
    after the code replaces a trailing `Z` with `+00:00`) is external
    to the repository, so a stored timestamp string is abstracted by
    its parse outcome: an aware time, a naive time, or `ValueError`.
  * Shapely geometry (also external) is abstracted by a structure of
    operations (`Shapely`) and, in the road risk engine, by an
    intersection predicate passed as a parameter.
  * The in-memory ("mock") backing store of `connection.py` is a plain
    Lean list threaded through the operations as explicit state.
-/

namespace FloodWatch

/-! ## Risk tier function — src/phase4_routing/routing/risk_levels.py -/

def TIER_LOW : ℚ := 2/10

def TIER_MODERATE : ℚ := 4/10

def TIER_HIGH : ℚ := 7/10

def MULTIPLIER_LOW : ℚ := 1

def MULTIPLIER_MODERATE : ℚ := 2

def MULTIPLIER_HIGH : ℚ := 5

/-- Model of `MULTIPLIER_CLOSED = math.inf`. -/
def MULTIPLIER_CLOSED : WithTop ℚ := ⊤

def RISK_LOW : String := "low"

def RISK_MODERATE : String := "moderate"

def RISK_HIGH : String := "high"

def RISK_SEVERE : String := "severe"

/-- Embedding of `compute_weight(base_weight, submergence_ratio)` from
risk_levels.py; the submergence argument is named `sub` here. -/
def compute_weight (base_weight : ℚ) (sub : ℚ) : WithTop ℚ :=
  if sub > TIER_HIGH then MULTIPLIER_CLOSED
  else if sub > TIER_MODERATE then ((base_weight * MULTIPLIER_HIGH : ℚ) : WithTop ℚ)
  else if sub > TIER_LOW then ((base_weight * MULTIPLIER_MODERATE : ℚ) : WithTop ℚ)
  else ((base_weight * MULTIPLIER_LOW : ℚ) : WithTop ℚ)

/-- Embedding of `get_risk_level(submergence_ratio)` from risk_levels.py. -/
def get_risk_level (sub : ℚ) : String :=
  if sub > TIER_HIGH then RISK_SEVERE
  else if sub > TIER_MODERATE then RISK_HIGH
  else if sub > TIER_LOW then RISK_MODERATE
  else RISK_LOW

/-- Embedding of `is_road_closed(submergence_ratio)` from risk_levels.py. -/
def is_road_closed (sub : ℚ) : Bool :=
  decide (sub > TIER_HIGH)

/-! ## Timestamps — model of Python datetime values stored in the mock DB

The store accepts any value in the `timestamp` property of a feature.  The
values that matter to flood_store.py are: a `datetime` object (naive or
aware), a string (abstracted by what `datetime.fromisoformat` yields on
it after the `"Z" → "+00:00"` replacement), or any other value (for
example a JSON number), which is neither a `datetime` nor a `str`. -/

/-- A Python datetime: an integer UTC instant, tagged naive or aware. -/
inductive PyTime where
  | naive (t : ℤ)
  | aware (t : ℤ)
deriving DecidableEq, Repr

/-- Outcome of `datetime.fromisoformat` on a string (after the code has
replaced a trailing `Z` with `+00:00`): a datetime, or `ValueError`. -/
inductive IsoParse where
  | ok (d : PyTime)
  | valueError
deriving DecidableEq, Repr

/-- A Python string holding a candidate timestamp, abstracted by its
`fromisoformat` outcome. -/
structure IsoString where
  parse : IsoParse
deriving DecidableEq, Repr

/-- A value found in the `timestamp` slot of a stored prediction. -/
inductive TsValue where
  | dt (d : PyTime)
  | str (s : IsoString)
  | other
deriving DecidableEq, Repr

/-! ## Flood prediction store — src/phase4_routing/db/flood_store.py
(mock mode: the in-memory list `conn.flood_predictions`) -/

/-- The `properties` dict of an incoming GeoJSON feature: each slot is
optional because the Python dict may lack the key. -/
structure FProps where
  submergence : Option ℚ
  velocity : Option ℚ
  timestamp : Option TsValue
deriving DecidableEq, Repr

/-- An incoming GeoJSON feature.  `geometry` is optional because
`feature["geometry"]` raises `KeyError` when the key is absent.  The
geometry payload is opaque to the store and carried as a parameter `G`.
The source property name is `submergence_ratio`. -/
structure Feature (G : Type) where
  geometry : Option G
  properties : FProps
deriving DecidableEq

/-- A GeoJSON FeatureCollection as passed to `store_predictions`. -/
structure FeatureCollection (G : Type) where
  features : List (Feature G)

/-- A record of the mock store list `conn.flood_predictions`, as built
by the loop in `store_predictions`.  The source field names are
`geometry`, `submergence_ratio`, `velocity`, `timestamp`, `source`. -/
structure PredRecord (G : Type) where
  geometry : G
  submergence : ℚ
  velocity : ℚ
  timestamp : TsValue
  source : String
deriving DecidableEq

/-- Outcome of a `store_predictions` call against the mock store: the
Python loop appends records one at a time, so when a feature raises
`KeyError` the records appended before it remain in the shared list.
The exception propagates (`err`), carrying the store state as left. -/
inductive StoreOutcome (G : Type) where
  | ok (count : ℕ) (st : List (PredRecord G))
  | err (st : List (PredRecord G))
deriving DecidableEq

/-- The timestamp string `datetime.now(timezone.utc).isoformat()` used
as the default when a feature has no `timestamp` property: it parses
back to an aware datetime at the current instant. -/
def nowIso (now : ℤ) : TsValue :=
  TsValue.str ⟨IsoParse.ok (PyTime.aware now)⟩

/-- The record the dict literal in `store_predictions` builds for one
feature: `feature["geometry"]` and
`feature["properties"]["submergence_ratio"]` raise `KeyError` when the
key is absent (`none` here), `velocity` and `timestamp` are read with
`.get` and a default. -/
def featureRecord (now : ℤ) {G : Type} (f : Feature G) : Option (PredRecord G) :=
  match f.geometry, f.properties.submergence with
  | some g, some r =>
      some { geometry := g
             submergence := r
             velocity := f.properties.velocity.getD 0
             timestamp := f.properties.timestamp.getD (nowIso now)
             source := "lisflood" }
  | _, _ => none

/-- The per-feature loop body of `store_predictions` (mock branch): for
each feature, build its record (a `KeyError` propagates, leaving the
list as appended so far) and append it to the list. -/
def storeLoop (now : ℤ) {G : Type} :
    List (Feature G) → List (PredRecord G) → Except (List (PredRecord G)) (List (PredRecord G))
  | [], st => Except.ok st
  | f :: fs, st =>
    match featureRecord now f with
    | some rec => storeLoop now fs (st ++ [rec])
    | none => Except.error st

/-- Embedding of `store_predictions(geojson)` in mock mode, with the
current instant and the store state made explicit. -/
def store_predictions (now : ℤ) {G : Type} (geojson : FeatureCollection G)
    (st : List (PredRecord G)) : StoreOutcome G :=
  if geojson.features.isEmpty then StoreOutcome.ok 0 st
  else
    match storeLoop now geojson.features st with
    | Except.ok stNew => StoreOutcome.ok geojson.features.length stNew
    | Except.error stPart => StoreOutcome.err stPart

/-- A feature of the FeatureCollection returned by
`get_latest_predictions`: these always carry a submergence ratio, a
velocity and the original timestamp value. -/
structure OutFeature (G : Type) where
  geometry : G
  submergence : ℚ
  velocity : ℚ
  timestamp : TsValue
deriving DecidableEq

/-- The timestamp-normalisation step of `get_latest_predictions`: a
string is parsed (a `ValueError` yields `datetime.now(timezone.utc)`),
a datetime is kept, and any other value is left as a non-datetime. -/
def resolveMockTs (now : ℤ) : TsValue → Option PyTime
  | TsValue.dt d => some d
  | TsValue.str s =>
      match s.parse with
      | IsoParse.ok d => some d
      | IsoParse.valueError => some (PyTime.aware now)
  | TsValue.other => none

/-- The comparison `ts >= cutoff` where `cutoff` is an aware datetime:
comparing a naive datetime, or a non-datetime value, with an aware
datetime raises `TypeError` in Python, modelled as the error case. -/
def tsGeCutoff (cutoff : ℤ) : Option PyTime → Except Unit Bool
  | some (PyTime.aware t) => Except.ok (decide (t ≥ cutoff))
  | some (PyTime.naive _) => Except.error ()
  | none => Except.error ()

/-- The output feature `get_latest_predictions` builds for a stored
record kept by the window filter: the stored submergence ratio,
velocity and original timestamp value under the `properties` key. -/
def outOf {G : Type} (p : PredRecord G) : OutFeature G :=
  { geometry := p.geometry
    submergence := p.submergence
    velocity := p.velocity
    timestamp := p.timestamp }

/-- The per-record loop of `get_latest_predictions` (mock branch):
normalise the timestamp, compare with the cutoff, and keep the record
as an output feature when it is recent enough.  An exception raised by
the comparison propagates out of the whole call. -/
def latestLoop (now cutoff : ℤ) {G : Type} :
    List (PredRecord G) → Except Unit (List (OutFeature G))
  | [] => Except.ok []
  | p :: ps =>
    match tsGeCutoff cutoff (resolveMockTs now p.timestamp) with
    | Except.error e => Except.error e
    | Except.ok true => (latestLoop now cutoff ps).map (fun l => outOf p :: l)
    | Except.ok false => latestLoop now cutoff ps

/-- Embedding of `get_latest_predictions(minutes)` in mock mode, with
the current instant and the store state explicit; the cutoff is
`now - minutes` (an aware datetime). -/
def get_latest_predictions (now : ℤ) (minutes : ℤ) {G : Type}
    (st : List (PredRecord G)) : Except Unit (List (OutFeature G)) :=
  latestLoop now (now - minutes) st

/-! ## Road risk engine — src/phase4_routing/routing/road_risk_updater.py
and the road-risk table of src/phase4_routing/db/flood_store.py.

The geometric intersection test `road_geometry.intersects(polygon)` is
performed by shapely, an external library; it is abstracted by a
Boolean predicate `inter` passed as a parameter. -/

/-- A flood polygon as prepared by `update_road_risks`: a (shapely)
geometry and the `submergence_ratio` property. -/
structure FloodPoly (G : Type) where
  geometry : G
  submergence : ℚ
deriving DecidableEq

/-- Embedding of `intersect_road_with_floods(road_geometry,
flood_polygons)`: fold over the polygons, taking the maximum
submergence ratio among those that intersect the road. -/
def intersect_road_with_floods {G : Type} (inter : G → G → Bool) (road : G)
    (floods : List (FloodPoly G)) : ℚ :=
  floods.foldl (fun m p => if inter road p.geometry then max m p.submergence else m) 0

/-- A road segment as submitted to `update_road_risks`: the dict keys
`road_segment_id`, `geometry` (possibly absent) and `base_weight`
(read with `.get("base_weight", 1.0)`). -/
structure RoadSegIn (G : Type) where
  road_segment_id : String
  geometry : Option G
  base_weight : Option ℚ
deriving DecidableEq

/-- A persisted record of the mock road-risk table `conn.road_risks`. -/
structure RoadRiskRec (G : Type) where
  road_segment_id : String
  geometry : Option G
  base_weight : ℚ
  dynamic_weight : WithTop ℚ
  max_submergence : ℚ
  is_closed : Bool
  updated_at : ℤ
deriving DecidableEq

/-- Embedding of `upsert_road_risk` (mock branch): update the first
record with a matching id (replacing its geometry only when a geometry
argument is given), otherwise append a new record. -/
def upsert_road_risk (now : ℤ) {G : Type} (segId : String) (base : ℚ)
    (dyn : WithTop ℚ) (maxSub : ℚ) (closed : Bool) (geom : Option G) :
    List (RoadRiskRec G) → List (RoadRiskRec G)
  | [] => [{ road_segment_id := segId
             geometry := geom
             base_weight := base
             dynamic_weight := dyn
             max_submergence := maxSub
             is_closed := closed
             updated_at := now }]
  | r :: rs =>
    if r.road_segment_id = segId then
      { r with base_weight := base
               dynamic_weight := dyn
               max_submergence := maxSub
               is_closed := closed
               updated_at := now
               geometry := if geom.isSome then geom else r.geometry } :: rs
    else
      r :: upsert_road_risk now segId base dyn maxSub closed geom rs

/-- Summary dict returned by `update_road_risks`; the last source key
is named `flood_polygons`. -/
structure Summary where
  updated : ℕ
  closed : ℕ
  total_segments : ℕ
  flood_polygons : ℕ
deriving DecidableEq, Repr

/-- The per-segment loop of `update_road_risks`: a segment without
geometry is skipped; otherwise the maximum submergence among the
intersecting polygons gives the dynamic weight and closure flag, the
record is upserted, and the counters advance. -/
def updateSegLoop {G : Type} (inter : G → G → Bool) (now : ℤ)
    (polys : List (FloodPoly G)) :
    List (RoadSegIn G) → ℕ → ℕ → List (RoadRiskRec G) → ℕ × ℕ × List (RoadRiskRec G)
  | [], u, c, st => (u, c, st)
  | seg :: rest, u, c, st =>
    match seg.geometry with
    | none => updateSegLoop inter now polys rest u c st
    | some g =>
      let base := seg.base_weight.getD 1
      let maxSub := intersect_road_with_floods inter g polys
      let dyn := compute_weight base maxSub
      let closed := is_road_closed maxSub
      let stNew := upsert_road_risk now seg.road_segment_id base dyn maxSub closed (some g) st
      updateSegLoop inter now polys rest (u + 1) (if closed then c + 1 else c) stNew

/-- The `get_road_risks()` fallback of `update_road_risks`: the
persisted records viewed as input segments. -/
def roadRisksAsSegments {G : Type} (st : List (RoadRiskRec G)) : List (RoadSegIn G) :=
  st.map (fun r => { road_segment_id := r.road_segment_id
                     geometry := r.geometry
                     base_weight := some r.base_weight })

/-- Embedding of `update_road_risks(road_segments,
prediction_window_minutes)` with the result of the active-flood query
(`get_latest_predictions`) passed in as `flood_features` and the
road-risk table threaded as explicit state.  With no active flood
features it returns the all-zero summary at once, before the segments
are even read. -/
def update_road_risks {G : Type} (inter : G → G → Bool) (now : ℤ)
    (flood_features : List (OutFeature G))
    (road_segments : Option (List (RoadSegIn G)))
    (st : List (RoadRiskRec G)) : Summary × List (RoadRiskRec G) :=
  if flood_features.isEmpty then
    ({ updated := 0, closed := 0, total_segments := 0, flood_polygons := 0 }, st)
  else
    let polys := flood_features.map
      (fun f => ({ geometry := f.geometry, submergence := f.submergence } : FloodPoly G))
    let segs := road_segments.getD (roadRisksAsSegments st)
    let out := updateSegLoop inter now polys segs 0 0 st
    ({ updated := out.1
       closed := out.2.1
       total_segments := segs.length
       flood_polygons := polys.length }, out.2.2)

/-! ## Rounding — model of the Python builtin `round(x, ndigits)`

Python rounds to the nearest multiple of `10 ^ (-ndigits)` with ties
going to the even neighbour; on the rationals that
model our float values this is exact round-half-even. -/

/-- Round a rational to the nearest integer, ties to even. -/
def roundHalfEven (q : ℚ) : ℤ :=
  let f := ⌊q⌋
  let r := q - (f : ℚ)
  if r < 1/2 then f
  else if r > 1/2 then f + 1
  else if f % 2 = 0 then f else f + 1

/-- Model of `round(q, ndigits)`. -/
def pyRound (q : ℚ) (ndigits : ℕ) : ℚ :=
  (roundHalfEven (q * (10 : ℚ) ^ ndigits) : ℚ) / (10 : ℚ) ^ ndigits

/-! ## Routing orchestrator — src/phase4_routing/routing/routing_api.py

Shapely is abstracted by a structure of the four operations the code
uses: building a LineString from (lon, lat) coordinates, taking a
the length of a geometry in degrees, the intersection test, and the length of
`route_line.intersection(polygon)`. -/

/-- The shapely operations used by `_compute_route_risk`. -/
structure Shapely (G : Type) where
  mkLine : List (ℚ × ℚ) → G
  length : G → ℚ
  intersects : G → G → Bool
  interLength : G → G → ℚ

/-- A flood feature as consumed by `_compute_route_risk`: `geometry`
is `none` when `shape(feature["geometry"])` raises (the feature is
then skipped), and the submergence ratio is read with
`properties.get("submergence_ratio", 0.0)`. -/
structure RRFlood (G : Type) where
  geometry : Option G
  submergence : Option ℚ
deriving DecidableEq

/-- One iteration of the flood loop in `_compute_route_risk`,
accumulating (max submergence, exposure length in degrees). -/
def riskStep {G : Type} (M : Shapely G) (line : G) (acc : ℚ × ℚ) (f : RRFlood G) : ℚ × ℚ :=
  match f.geometry with
  | none => acc
  | some poly =>
    if M.intersects line poly then
      (max acc.1 (f.submergence.getD 0), acc.2 + M.interLength line poly)
    else acc

/-- The full-precision accumulation over all flood features: the pair
(max submergence, exposure length in degrees) before any rounding. -/
def routeRiskRaw {G : Type} (M : Shapely G) (line : G) (floods : List (RRFlood G)) : ℚ × ℚ :=
  floods.foldl (riskStep M line) (0, 0)

/-- The risk metrics dict returned by `_compute_route_risk`; the first
source key is named `max_submergence_ratio`. -/
structure RouteRisk where
  max_submergence : ℚ
  exposure_length : ℚ
  predicted_arrival_risk : ℚ
deriving DecidableEq, Repr

/-- Embedding of `_compute_route_risk(route_coords, flood_features)`:
degenerate inputs give all-zero metrics; otherwise the metrics are
computed at full precision and rounded (4, 2, 4 decimal places) in the
returned dict. -/
def compute_route_risk {G : Type} (M : Shapely G) (route_coords : List (ℚ × ℚ))
    (floods : List (RRFlood G)) : RouteRisk :=
  if route_coords.isEmpty || floods.isEmpty then
    { max_submergence := 0, exposure_length := 0, predicted_arrival_risk := 0 }
  else
    let line_coords := route_coords.map (fun c => (c.2, c.1))
    if line_coords.length < 2 then
      { max_submergence := 0, exposure_length := 0, predicted_arrival_risk := 0 }
    else
      let route_line := M.mkLine line_coords
      let total_length := M.length route_line
      let raw := routeRiskRaw M route_line floods
      let exposure_m := raw.2 * 111000
      let exposure_frac := if total_length > 0 then raw.2 / total_length else 0
      let par := min 1 (6/10 * raw.1 + 4/10 * exposure_frac)
      { max_submergence := pyRound raw.1 4
        exposure_length := pyRound exposure_m 2
        predicted_arrival_risk := pyRound par 4 }

/-- Embedding of `_determine_status(max_submergence, route_available)`
(the source literals are 0.7 and 0.2). -/
def determine_status (maxSub : ℚ) (route_available : Bool) : String :=
  if !route_available then "blocked"
  else if maxSub > 7/10 then "blocked"
  else if maxSub > 2/10 then "rerouted"
  else "ok"

/-- The dict returned by `OSRMClient.get_route` as far as
`handle_route_request` reads it: the status string and the route
waypoints as (lat, lon) pairs. -/
structure OsrmResult where
  status : String
  route : List (ℚ × ℚ)

/-- The response dict of `handle_route_request`; the source key of the
`max_submergence` field is `max_submergence_ratio`. -/
structure RouteResponse where
  status : String
  start : ℚ × ℚ
  goal : ℚ × ℚ
  route : List (ℚ × ℚ)
  risk_level : String
  max_submergence : ℚ
  exposure_length : ℚ
  predicted_arrival_risk : ℚ
deriving DecidableEq, Repr

/-- Embedding of `handle_route_request(start, goal, ...)` as a pure
function of the flood store snapshot (`flood_features`, the features
list fetched from `get_latest_predictions`) and the path-finder result
(`osrm_result`). -/
def handle_route_request {G : Type} (M : Shapely G) (start goal : ℚ × ℚ)
    (flood_features : List (RRFlood G)) (osrm_result : OsrmResult) : RouteResponse :=
  if osrm_result.status ≠ "ok" then
    { status := "blocked"
      start := start
      goal := goal
      route := []
      risk_level := "severe"
      max_submergence := 0
      exposure_length := 0
      predicted_arrival_risk := 1 }
  else
    let risk := compute_route_risk M osrm_result.route flood_features
    { status := determine_status risk.max_submergence true
      start := start
      goal := goal
      route := osrm_result.route
      risk_level := get_risk_level risk.max_submergence
      max_submergence := risk.max_submergence
      exposure_length := risk.exposure_length
      predicted_arrival_risk := risk.predicted_arrival_risk }

/-! ## Auxiliary predicates and concrete fixtures used by the
statements below -/

/-- A stored timestamp value on which the window comparison of
`get_latest_predictions` does not raise: an aware datetime, or a
string that parses to an aware datetime or fails to parse (and is then
replaced by the current aware instant). -/
def tsSafe : TsValue → Bool
  | TsValue.dt (PyTime.aware _) => true
  | TsValue.dt (PyTime.naive _) => false
  | TsValue.str s =>
      match s.parse with
      | IsoParse.ok (PyTime.aware _) => true
      | IsoParse.ok (PyTime.naive _) => false
      | IsoParse.valueError => true
  | TsValue.other => false

/-- A stored timestamp value that is a malformed/unparseable string. -/
def tsMalformed : TsValue → Bool
  | TsValue.str s => decide (s.parse = IsoParse.valueError)
  | _ => false

/-- The timestamp property of an incoming feature is absent (so the
store substitutes the current aware instant) or parses to an aware
datetime no older than `now - minutes`. -/
def tsInWindow (now minutes : ℤ) : Option TsValue → Bool
  | none => decide (now - minutes ≤ now)
  | some (TsValue.dt (PyTime.aware t)) => decide (now - minutes ≤ t)
  | some (TsValue.str s) =>
      match s.parse with
      | IsoParse.ok (PyTime.aware t) => decide (now - minutes ≤ t)
      | _ => false
  | some _ => false

/-- A feature is valid for the round-trip property: it has a geometry
and a submergence ratio, and its timestamp is covered by the window. -/
def validInWindow (now minutes : ℤ) {G : Type} (f : Feature G) : Bool :=
  f.geometry.isSome && f.properties.submergence.isSome &&
    tsInWindow now minutes f.properties.timestamp

/-- A degenerate shapely model over a one-point geometry type, used to
evaluate the orchestrator on concrete inputs: every geometry has
length 1, every pair of geometries intersects, and every intersection
has length 0. -/
def unitShapely : Shapely Unit :=
  { mkLine := fun _ => ()
    length := fun _ => 1
    intersects := fun _ _ => true
    interLength := fun _ _ => 0 }

/-- A well-formed incoming feature over the one-point geometry type. -/
def featOK : Feature Unit :=
  { geometry := some ()
    properties := { submergence := some (3/10)
                    velocity := none
                    timestamp := some (nowIso 0) } }

/-- An incoming feature lacking the required `submergence_ratio`
property: the dict literal of the store raises `KeyError` on it. -/
def featBad : Feature Unit :=
  { geometry := some ()
    properties := { submergence := none
                    velocity := none
                    timestamp := none } }

/-- A stored prediction whose timestamp string parses to a naive
datetime, such as the string `2024-01-01T00:00:00` (no UTC offset). -/
def naiveTsRecord : PredRecord Unit :=
  { geometry := ()
    submergence := 1/2
    velocity := 0
    timestamp := TsValue.str ⟨IsoParse.ok (PyTime.naive 0)⟩
    source := "lisflood" }

/-- A stored prediction whose timestamp string is unparseable. -/
def malformedTsRecord : PredRecord Unit :=
  { geometry := ()
    submergence := 1/2
    velocity := 0
    timestamp := TsValue.str ⟨IsoParse.valueError⟩
    source := "lisflood" }

/-! ## Theorems -/

/-- Folding the conditional-max step of `intersect_road_with_floods`
equals folding `max` over the submergence ratios of the polygons that
pass the intersection test. -/
theorem foldIntersectMax_eq_filter {G : Type} (inter : G → G → Bool) (road : G)
    (floods : List (FloodPoly G)) (a : ℚ) :
    floods.foldl (fun m p => if inter road p.geometry then max m p.submergence else m) a =
      ((floods.filter (fun p => inter road p.geometry)).map
        (fun p => p.submergence)).foldl max a := by
  induction floods generalizing a with
  | nil => rfl
  | cons p ps ih =>
    cases h : inter road p.geometry with
    | true => simp [List.filter_cons, h, ih]
    | false => simp [List.filter_cons, h, ih]

/-- The starting value is a lower bound of a `max` fold. -/
theorem le_maxFold (l : List ℚ) (a : ℚ) : a ≤ l.foldl max a := by
  induction l generalizing a with
  | nil => exact le_rfl
  | cons x xs ih => exact le_trans (le_max_left a x) (ih (max a x))

/-- Every member of the list is a lower bound of a `max` fold. -/
theorem mem_le_maxFold (l : List ℚ) : ∀ (a x : ℚ), x ∈ l → x ≤ l.foldl max a := by
  induction l with
  | nil =>
    intro a x hx
    cases hx
  | cons y ys ih =>
    intro a x hx
    rcases List.mem_cons.mp hx with rfl | hx2
    · exact le_trans (le_max_right a x) (le_maxFold ys (max a x))
    · exact ih (max a y) x hx2

/-- A `max` fold returns its starting value or a member of the list. -/
theorem maxFold_eq_or_mem (l : List ℚ) : ∀ a : ℚ, l.foldl max a = a ∨ l.foldl max a ∈ l := by
  induction l with
  | nil =>
    intro a
    exact Or.inl rfl
  | cons y ys ih =>
    intro a
    rcases ih (max a y) with h | h
    · rcases max_choice a y with hm | hm
      · exact Or.inl (by rw [List.foldl_cons, h, hm])
      · exact Or.inr (by rw [List.foldl_cons, h, hm]; exact List.mem_cons_self y ys)
    · exact Or.inr (List.mem_cons_of_mem y (by rw [List.foldl_cons]; exact h))

/-- C5: the per-segment submergence of the road risk engine is the maximum
submergence ratio over the flood polygons that intersect the segment:
it bounds every intersecting polygon from above, is 0 when none
intersect, and is 0 or attained by some intersecting polygon — never
an average. -/
theorem intersect_road_with_floods_is_max {G : Type} (inter : G → G → Bool)
    (road : G) (floods : List (FloodPoly G)) :
    intersect_road_with_floods inter road floods =
      ((floods.filter (fun p => inter road p.geometry)).map
        (fun p => p.submergence)).foldl max 0 ∧
    (∀ p ∈ floods, inter road p.geometry = true →
      p.submergence ≤ intersect_road_with_floods inter road floods) ∧
    ((∀ p ∈ floods, inter road p.geometry = false) →
      intersect_road_with_floods inter road floods = 0) ∧
    (intersect_road_with_floods inter road floods = 0 ∨
      ∃ p, p ∈ floods ∧ inter road p.geometry = true ∧
        p.submergence = intersect_road_with_floods inter road floods) := by
  have heq : intersect_road_with_floods inter road floods =
      ((floods.filter (fun p => inter road p.geometry)).map
        (fun p => p.submergence)).foldl max 0 :=
    foldIntersectMax_eq_filter inter road floods 0
  refine ⟨heq, ?_, ?_, ?_⟩
  · intro p hp hi
    rw [heq]
    exact mem_le_maxFold _ 0 _ (List.mem_map.mpr ⟨p, List.mem_filter.mpr ⟨hp, hi⟩, rfl⟩)
  · intro hnone
    have hfil : floods.filter (fun p => inter road p.geometry) = [] := by
      rw [List.filter_eq_nil_iff]
      intro p hp
      simp [hnone p hp]
    rw [heq, hfil]
    rfl
  · rcases maxFold_eq_or_mem
        ((floods.filter (fun p => inter road p.geometry)).map (fun p => p.submergence)) 0 with
      h | h
    · exact Or.inl (by rw [heq, h])
    · obtain ⟨p, hpfil, hps⟩ := List.mem_map.mp h
      obtain ⟨hp, hi⟩ := List.mem_filter.mp hpfil
      exact Or.inr ⟨p, hp, hi, by rw [heq, hps]⟩

/-- Witness for C5: a segment intersecting two polygons with
submergence 0.3 and 0.7 yields max submergence 0.7, not an average. -/
theorem intersect_road_with_floods_witness :
    intersect_road_with_floods (fun _ _ : Unit => true) ()
      [{ geometry := (), submergence := 3/10 },
       { geometry := (), submergence := 7/10 }] = 7/10 := by
  have h1 : max (0 : ℚ) (3/10) = 3/10 := max_eq_right (by norm_num)
  have h2 : max (3/10 : ℚ) (7/10) = 7/10 := max_eq_right (by norm_num)
  simp [intersect_road_with_floods, h1, h2]

/-- C6: with no active flood predictions, `update_road_risks` returns
the all-zero summary and leaves the persisted road-risk table exactly
as it was — no segment is read or upserted. -/
theorem update_road_risks_no_floods {G : Type} (inter : G → G → Bool) (now : ℤ)
    (segs : Option (List (RoadSegIn G))) (st : List (RoadRiskRec G)) :
    update_road_risks inter now [] segs st =
      ({ updated := 0, closed := 0, total_segments := 0, flood_polygons := 0 }, st) :=
  rfl

/-- A timestamp that is safe for the window comparison resolves to an
aware datetime. -/
theorem tsSafe_resolve (now : ℤ) {ts : TsValue} (h : tsSafe ts = true) :
    ∃ t, resolveMockTs now ts = some (PyTime.aware t) := by
  cases ts with
  | dt d =>
    cases d with
    | naive t => simp [tsSafe] at h
    | aware t => exact ⟨t, rfl⟩
  | str s =>
    rcases s with ⟨pr⟩
    cases pr with
    | ok d =>
      cases d with
      | naive t => simp [tsSafe] at h
      | aware t => exact ⟨t, rfl⟩
    | valueError => exact ⟨now, rfl⟩
  | other => simp [tsSafe] at h

/-- A malformed timestamp string resolves to the current aware
instant. -/
theorem tsMalformed_resolve (now : ℤ) {ts : TsValue} (h : tsMalformed ts = true) :
    resolveMockTs now ts = some (PyTime.aware now) := by
  cases ts with
  | dt d => simp [tsMalformed] at h
  | str s =>
    rcases s with ⟨pr⟩
    cases pr with
    | ok d => simp [tsMalformed] at h
    | valueError => rfl
  | other => simp [tsMalformed] at h

/-- When every stored timestamp is safe and the cutoff is not in the
future, the window filter loop succeeds and keeps every record whose
timestamp string was malformed. -/
theorem latestLoop_safe {G : Type} (now cutoff : ℤ) (hc : cutoff ≤ now) :
    ∀ st : List (PredRecord G), (∀ p ∈ st, tsSafe p.timestamp = true) →
      ∃ l, latestLoop now cutoff st = Except.ok l ∧
        ∀ p ∈ st, tsMalformed p.timestamp = true → outOf p ∈ l := by
  intro st
  induction st with
  | nil =>
    intro _
    exact ⟨[], rfl, by simp⟩
  | cons p ps ih =>
    intro hsafe
    obtain ⟨l, hl, hmem⟩ := ih (fun q hq => hsafe q (List.mem_cons_of_mem p hq))
    obtain ⟨t, hres⟩ := tsSafe_resolve now (hsafe p (List.mem_cons_self p ps))
    by_cases hge : cutoff ≤ t
    · refine ⟨outOf p :: l, ?_, ?_⟩
      · simp [latestLoop, hres, tsGeCutoff, hge, hl, Except.map]
      · intro q hq hm
        rcases List.mem_cons.mp hq with rfl | hq2
        · exact List.mem_cons_self _ _
        · exact List.mem_cons_of_mem _ (hmem q hq2 hm)
    · refine ⟨l, ?_, ?_⟩
      · simp [latestLoop, hres, tsGeCutoff, hge, hl]
      · intro q hq hm
        rcases List.mem_cons.mp hq with rfl | hq2
        · have h2 := hres.symm.trans (tsMalformed_resolve now hm)
          injection h2 with h3
          injection h3 with h4
          exact absurd (h4 ▸ hc) hge
        · exact hmem q hq2 hm

/-- C7 (amended): provided every stored timestamp is an aware datetime
or a string that parses to an aware datetime or fails to parse,
`get_latest_predictions` never faults, and a prediction with a
malformed timestamp is treated as current and returned for any
nonnegative window.  (As stated, the claim is false: see the
counterexample — a stored naive timestamp makes the window comparison
raise instead of being rejected or coerced to UTC.) -/
theorem get_latest_safe_never_faults {G : Type} (now minutes : ℤ)
    (st : List (PredRecord G))
    (hsafe : ∀ p ∈ st, tsSafe p.timestamp = true) (hw : 0 ≤ minutes) :
    ∃ l, get_latest_predictions now minutes st = Except.ok l ∧
      ∀ p ∈ st, tsMalformed p.timestamp = true → outOf p ∈ l :=
  latestLoop_safe now (now - minutes) (by omega) st hsafe

/-- Witness for C7 (amended): a store holding one prediction with an
unparseable timestamp is returned without fault for a 30-minute
window. -/
theorem get_latest_safe_never_faults_witness :
    ∃ l, get_latest_predictions 0 30 [malformedTsRecord] = Except.ok l ∧
      ∀ p ∈ [malformedTsRecord], tsMalformed p.timestamp = true → outOf p ∈ l :=
  get_latest_safe_never_faults 0 30 [malformedTsRecord] (by decide) (by norm_num)

/-- Counterexample to C7 as stated: a stored prediction whose
timestamp string parses to a naive datetime (for example
`2024-01-01T00:00:00` without a UTC offset) makes
`get_latest_predictions` raise `TypeError` on the naive-versus-aware
comparison with the cutoff, instead of never faulting. -/
theorem get_latest_naive_timestamp_faults :
    get_latest_predictions 0 30 [naiveTsRecord] = Except.error () :=
  rfl

/-- A feature yields a record exactly when it has both the geometry
and the submergence ratio keys. -/
theorem featureRecord_isSome {G : Type} (now : ℤ) (f : Feature G) :
    (featureRecord now f).isSome = (f.geometry.isSome && f.properties.submergence.isSome) := by
  rcases f with ⟨g, ⟨sub, vel, ts⟩⟩
  cases g <;> cases sub <;> simp [featureRecord]

/-- When every feature is well-formed, the store loop appends all
their records in order. -/
theorem storeLoop_all_valid {G : Type} (now : ℤ) :
    ∀ (fs : List (Feature G)) (st : List (PredRecord G)),
      (∀ f ∈ fs, (featureRecord now f).isSome = true) →
      storeLoop now fs st = Except.ok (st ++ fs.filterMap (featureRecord now)) := by
  intro fs
  induction fs with
  | nil =>
    intro st _
    simp [storeLoop]
  | cons f fs ih =>
    intro st h
    obtain ⟨rec, hrec⟩ := Option.isSome_iff_exists.mp (h f (List.mem_cons_self f fs))
    simp [storeLoop, hrec, ih (st ++ [rec]) (fun g hg => h g (List.mem_cons_of_mem f hg)),
      List.filterMap_cons]

/-- When the features start with a well-formed prefix and then one
raising `KeyError`, the store loop stops with exactly that prefix and its
records appended. -/
theorem storeLoop_fails {G : Type} (now : ℤ) :
    ∀ (good : List (Feature G)) (bad : Feature G) (rest : List (Feature G))
      (st : List (PredRecord G)),
      (∀ f ∈ good, (featureRecord now f).isSome = true) →
      featureRecord now bad = none →
      storeLoop now (good ++ bad :: rest) st =
        Except.error (st ++ good.filterMap (featureRecord now)) := by
  intro good
  induction good with
  | nil =>
    intro bad rest st _ hbad
    simp [storeLoop, hbad]
  | cons f fs ih =>
    intro bad rest st h hbad
    obtain ⟨rec, hrec⟩ := Option.isSome_iff_exists.mp (h f (List.mem_cons_self f fs))
    simp [storeLoop, hrec,
      ih bad rest (st ++ [rec]) (fun g hg => h g (List.mem_cons_of_mem f hg)) hbad,
      List.filterMap_cons]

/-- C9 (amended): `store_predictions` on an empty FeatureCollection is
a no-op returning 0; on a batch of well-formed features it appends all
of them and returns their number; but when a feature partway lacks the
required keys, the features appended before it remain in the store
while the exception propagates — the store is NOT rolled back to its
pre-call state, so a partially-appended batch is visible.  (The
original atomicity claim is refuted by the counterexample.) -/
theorem store_predictions_spec {G : Type} (now : ℤ) (features : List (Feature G))
    (st : List (PredRecord G)) :
    (store_predictions now ⟨[]⟩ st = StoreOutcome.ok 0 st) ∧
    ((∀ f ∈ features, f.geometry.isSome = true ∧ f.properties.submergence.isSome = true) →
      store_predictions now ⟨features⟩ st =
        StoreOutcome.ok features.length (st ++ features.filterMap (featureRecord now))) ∧
    (∀ good bad rest, features = good ++ bad :: rest →
      (∀ f ∈ good, f.geometry.isSome = true ∧ f.properties.submergence.isSome = true) →
      featureRecord now bad = none →
      store_predictions now ⟨features⟩ st =
        StoreOutcome.err (st ++ good.filterMap (featureRecord now))) := by
  refine ⟨rfl, ?_, ?_⟩
  · intro h
    have hall : ∀ f ∈ features, (featureRecord now f).isSome = true := by
      intro f hf
      rw [featureRecord_isSome]
      simp [(h f hf).1, (h f hf).2]
    cases features with
    | nil => simp [store_predictions]
    | cons f fs =>
      simp [store_predictions, storeLoop_all_valid now (f :: fs) st hall]
  · intro good bad rest hfe hg hbad
    subst hfe
    have hall : ∀ f ∈ good, (featureRecord now f).isSome = true := by
      intro f hf
      rw [featureRecord_isSome]
      simp [(hg f hf).1, (hg f hf).2]
    have hne : (good ++ bad :: rest).isEmpty = false := by
      cases good <;> rfl
    simp [store_predictions, hne, storeLoop_fails now good bad rest st hall hbad]

/-- Counterexample to C9 as stated: storing a batch whose second
feature lacks `submergence_ratio` raises after the first feature was
already appended, leaving the store holding a partial batch instead of
its pre-call (empty) state. -/
theorem store_partial_batch_cex :
    store_predictions 0 ⟨[featOK, featBad]⟩ [] =
      StoreOutcome.err [{ geometry := (), submergence := 3/10, velocity := 0,
                          timestamp := nowIso 0, source := "lisflood" }] ∧
    ([{ geometry := (), submergence := 3/10, velocity := 0,
        timestamp := nowIso 0, source := "lisflood" }] : List (PredRecord Unit)) ≠ [] :=
  ⟨rfl, by simp⟩

/-- A filterMap whose function succeeds on every element preserves the
length. -/
theorem filterMap_length_all_some {α β : Type} (g : α → Option β) :
    ∀ l : List α, (∀ a ∈ l, (g a).isSome = true) → (l.filterMap g).length = l.length := by
  intro l
  induction l with
  | nil =>
    intro _
    rfl
  | cons a as ih =>
    intro h
    obtain ⟨b, hb⟩ := Option.isSome_iff_exists.mp (h a (List.mem_cons_self a as))
    simp [List.filterMap_cons, hb, ih (fun x hx => h x (List.mem_cons_of_mem a hx))]

/-- When the timestamp of every stored record resolves to an aware instant
at or after the cutoff, the window filter keeps every record. -/
theorem latestLoop_all_kept {G : Type} (now cutoff : ℤ) :
    ∀ st : List (PredRecord G),
      (∀ p ∈ st, ∃ t, resolveMockTs now p.timestamp = some (PyTime.aware t) ∧ cutoff ≤ t) →
      latestLoop now cutoff st = Except.ok (st.map outOf) := by
  intro st
  induction st with
  | nil =>
    intro _
    rfl
  | cons p ps ih =>
    intro h
    obtain ⟨t, hres, hge⟩ := h p (List.mem_cons_self p ps)
    simp [latestLoop, hres, tsGeCutoff, hge,
      ih (fun q hq => h q (List.mem_cons_of_mem p hq)), Except.map]

/-- The record of a feature whose timestamp is covered by the window
resolves to an aware instant at or after the cutoff `now - minutes`. -/
theorem featureRecord_inWindow {G : Type} (now minutes : ℤ) (f : Feature G)
    (rec : PredRecord G) (hrec : featureRecord now f = some rec)
    (hw : tsInWindow now minutes f.properties.timestamp = true) :
    ∃ t, resolveMockTs now rec.timestamp = some (PyTime.aware t) ∧ now - minutes ≤ t := by
  rcases f with ⟨g, ⟨sub, vel, ts⟩⟩
  cases g with
  | none => simp [featureRecord] at hrec
  | some g0 =>
    cases sub with
    | none => simp [featureRecord] at hrec
    | some r =>
      have h2 : ({ geometry := g0, submergence := r, velocity := vel.getD 0,
                   timestamp := ts.getD (nowIso now),
                   source := "lisflood" } : PredRecord G) = rec :=
        Option.some_inj.mp hrec
      have hts : rec.timestamp = ts.getD (nowIso now) := by
        rw [← h2]
      cases ts with
      | none =>
        refine ⟨now, ?_, ?_⟩
        · rw [hts]
          rfl
        · simpa [tsInWindow] using hw
      | some tv =>
        cases tv with
        | dt d =>
          cases d with
          | naive t => simp [tsInWindow] at hw
          | aware t =>
            refine ⟨t, ?_, ?_⟩
            · rw [hts]
              rfl
            · simpa [tsInWindow] using hw
        | str s =>
          rcases s with ⟨pr⟩
          cases pr with
          | ok d =>
            cases d with
            | naive t => simp [tsInWindow] at hw
            | aware t =>
              refine ⟨t, ?_, ?_⟩
              · rw [hts]
                rfl
              · simpa [tsInWindow] using hw
          | valueError => simp [tsInWindow] at hw
        | other => simp [tsInWindow] at hw

/-- C10: storing a FeatureCollection of N valid features into an empty
store and then querying with a window that covers all their timestamps
returns exactly N predictions. -/
theorem store_then_latest_roundtrip {G : Type} (now minutes : ℤ)
    (features : List (Feature G))
    (h : ∀ f ∈ features, validInWindow now minutes f = true) :
    ∃ st l, store_predictions now ⟨features⟩ [] = StoreOutcome.ok features.length st ∧
      get_latest_predictions now minutes st = Except.ok l ∧
      l.length = features.length := by
  have hall : ∀ f ∈ features, (featureRecord now f).isSome = true := by
    intro f hf
    have hv := h f hf
    rw [validInWindow] at hv
    simp only [Bool.and_eq_true] at hv
    rw [featureRecord_isSome]
    simp [hv.1.1, hv.1.2]
  refine ⟨features.filterMap (featureRecord now),
          (features.filterMap (featureRecord now)).map outOf, ?_, ?_, ?_⟩
  · cases features with
    | nil => simp [store_predictions]
    | cons f fs => simp [store_predictions, storeLoop_all_valid now (f :: fs) [] hall]
  · refine latestLoop_all_kept now (now - minutes) _ ?_
    intro p hp
    obtain ⟨f, hf, hrec⟩ := List.mem_filterMap.mp hp
    have hv := h f hf
    rw [validInWindow] at hv
    simp only [Bool.and_eq_true] at hv
    exact featureRecord_inWindow now minutes f p hrec hv.2
  · rw [List.length_map]
    exact filterMap_length_all_some (featureRecord now) features hall

/-- Witness for C10: two valid features stored into an empty store are
both returned by a 30-minute window query. -/
theorem store_then_latest_roundtrip_witness :
    ∃ st l, store_predictions 0 ⟨[featOK, featOK]⟩ [] = StoreOutcome.ok 2 st ∧
      get_latest_predictions 0 30 st = Except.ok l ∧ l.length = 2 :=
  store_then_latest_roundtrip 0 30 [featOK, featOK] (by decide)

/-- C8 (amended): on a successful path-finder result with a route of
at least two waypoints and a nonempty flood set, the scorer computes
the maximum submergence and the exposure internally at full precision
and rounds them (4 and 2 decimal places, and 4 for the arrival risk
blend) in its returned metrics; the orchestrator then derives status
and risk level from the ROUNDED maximum submergence, not from the
full-precision value.  (The original full-precision claim for the
status derivation is refuted by the counterexample.) -/
theorem route_metrics_rounding {G : Type} (M : Shapely G) (a b : ℚ × ℚ)
    (floods : List (RRFlood G)) (osrm : OsrmResult)
    (hok : osrm.status = "ok") (hroute : 2 ≤ osrm.route.length) (hfl : floods ≠ []) :
    ∃ rawMs rawExpo : ℚ,
      (rawMs, rawExpo) =
        routeRiskRaw M (M.mkLine (osrm.route.map (fun c => (c.2, c.1)))) floods ∧
      (handle_route_request M a b floods osrm).max_submergence = pyRound rawMs 4 ∧
      (handle_route_request M a b floods osrm).exposure_length =
        pyRound (rawExpo * 111000) 2 ∧
      (handle_route_request M a b floods osrm).predicted_arrival_risk =
        pyRound (min 1 (6/10 * rawMs + 4/10 *
          (if M.length (M.mkLine (osrm.route.map (fun c => (c.2, c.1)))) > 0 then
            rawExpo / M.length (M.mkLine (osrm.route.map (fun c => (c.2, c.1))))
          else 0))) 4 ∧
      (handle_route_request M a b floods osrm).status =
        determine_status (pyRound rawMs 4) true ∧
      (handle_route_request M a b floods osrm).risk_level =
        get_risk_level (pyRound rawMs 4) := by
  have hne1 : osrm.route.isEmpty = false := by
    cases hr : osrm.route with
    | nil =>
      rw [hr] at hroute
      simp at hroute
    | cons x xs => rfl
  have hne2 : floods.isEmpty = false := by
    cases floods with
    | nil => exact absurd rfl hfl
    | cons f fs => rfl
  have hlen : ¬ osrm.route.length < 2 := by
    omega
  have hcr : compute_route_risk M osrm.route floods =
      { max_submergence :=
          pyRound (routeRiskRaw M (M.mkLine (osrm.route.map (fun c => (c.2, c.1)))) floods).1 4
        exposure_length :=
          pyRound ((routeRiskRaw M (M.mkLine (osrm.route.map (fun c => (c.2, c.1)))) floods).2
            * 111000) 2
        predicted_arrival_risk :=
          pyRound (min 1
            (6/10 * (routeRiskRaw M (M.mkLine (osrm.route.map (fun c => (c.2, c.1)))) floods).1 +
             4/10 *
              (if M.length (M.mkLine (osrm.route.map (fun c => (c.2, c.1)))) > 0 then
                (routeRiskRaw M (M.mkLine (osrm.route.map (fun c => (c.2, c.1)))) floods).2 /
                  M.length (M.mkLine (osrm.route.map (fun c => (c.2, c.1))))
              else 0))) 4 } := by
    rw [compute_route_risk]
    simp [hne1, hne2, hlen]
  refine ⟨(routeRiskRaw M (M.mkLine (osrm.route.map (fun c => (c.2, c.1)))) floods).1,
          (routeRiskRaw M (M.mkLine (osrm.route.map (fun c => (c.2, c.1)))) floods).2,
          rfl, ?_, ?_, ?_, ?_, ?_⟩ <;>
    simp [handle_route_request, hok, hcr]

/-- Witness for C8 (amended) at a concrete shapely model, route and
flood set. -/
theorem route_metrics_rounding_witness :
    ∃ rawMs rawExpo : ℚ,
      (rawMs, rawExpo) =
        routeRiskRaw unitShapely
          (unitShapely.mkLine (([(0, 0), (1, 1)] : List (ℚ × ℚ)).map (fun c => (c.2, c.1))))
          [{ geometry := some (), submergence := some (1/2) }] ∧
      (handle_route_request unitShapely (0, 0) (1, 1)
          [{ geometry := some (), submergence := some (1/2) }]
          { status := "ok", route := [(0, 0), (1, 1)] }).max_submergence =
        pyRound rawMs 4 ∧
      (handle_route_request unitShapely (0, 0) (1, 1)
          [{ geometry := some (), submergence := some (1/2) }]
          { status := "ok", route := [(0, 0), (1, 1)] }).exposure_length =
        pyRound (rawExpo * 111000) 2 ∧
      (handle_route_request unitShapely (0, 0) (1, 1)
          [{ geometry := some (), submergence := some (1/2) }]
          { status := "ok", route := [(0, 0), (1, 1)] }).predicted_arrival_risk =
        pyRound (min 1 (6/10 * rawMs + 4/10 *
          (if unitShapely.length
              (unitShapely.mkLine
                (([(0, 0), (1, 1)] : List (ℚ × ℚ)).map (fun c => (c.2, c.1)))) > 0 then
            rawExpo / unitShapely.length
              (unitShapely.mkLine
                (([(0, 0), (1, 1)] : List (ℚ × ℚ)).map (fun c => (c.2, c.1))))
          else 0))) 4 ∧
      (handle_route_request unitShapely (0, 0) (1, 1)
          [{ geometry := some (), submergence := some (1/2) }]
          { status := "ok", route := [(0, 0), (1, 1)] }).status =
        determine_status (pyRound rawMs 4) true ∧
      (handle_route_request unitShapely (0, 0) (1, 1)
          [{ geometry := some (), submergence := some (1/2) }]
          { status := "ok", route := [(0, 0), (1, 1)] }).risk_level =
        get_risk_level (pyRound rawMs 4) :=
  route_metrics_rounding unitShapely (0, 0) (1, 1)
    [{ geometry := some (), submergence := some (1/2) }]
    { status := "ok", route := [(0, 0), (1, 1)] } rfl (by decide) (by simp)

/-- Counterexample to C8 as stated: with one intersecting flood
polygon of submergence 0.20004, the full-precision maximum submergence
is 0.20004 (whose status would be "rerouted"), yet the orchestrator
returns status "ok" because it feeds the 4-decimal-rounded value 0.2
to the transition function. -/
theorem route_rounding_cex :
    (routeRiskRaw unitShapely ()
        [{ geometry := some (), submergence := some (20004/100000) }]).1 = 20004/100000 ∧
    (handle_route_request unitShapely (0, 0) (1, 1)
        [{ geometry := some (), submergence := some (20004/100000) }]
        { status := "ok", route := [(0, 0), (1, 1)] }).status = "ok" ∧
    determine_status (20004/100000) true = "rerouted" := by
  have hmax : max (0 : ℚ) (20004/100000) = 20004/100000 := max_eq_right (by norm_num)
  have hfloor : ⌊(20004/100000 : ℚ) * (10 : ℚ) ^ 4⌋ = 2000 := by
    rw [show ((20004 : ℚ)/100000) * (10 : ℚ) ^ 4 = 20004/10 by norm_num]
    rw [Int.floor_eq_iff]
    norm_num
  have hround : pyRound (20004/100000) 4 = 1/5 := by
    rw [pyRound, roundHalfEven]
    rw [hfloor]
    norm_num
  refine ⟨?_, ?_, ?_⟩
  · simp [routeRiskRaw, riskStep, unitShapely, hmax]
  · simp [handle_route_request, compute_route_risk, routeRiskRaw, riskStep, unitShapely, hmax,
      hround, determine_status]
    norm_num
  · norm_num [determine_status]

/-- Witness for C6 on a concrete segment list and store. -/
theorem update_road_risks_no_floods_witness :
    update_road_risks (fun _ _ : Unit => true) 0 []
        (some [{ road_segment_id := "road_001", geometry := some (), base_weight := some 1 }])
        [] =
      ({ updated := 0, closed := 0, total_segments := 0, flood_polygons := 0 }, []) :=
  update_road_risks_no_floods (fun _ _ : Unit => true) 0
    (some [{ road_segment_id := "road_001", geometry := some (), base_weight := some 1 }]) []

/-- C2: the transition function of the orchestrator returns "blocked"
whenever the path is unavailable; otherwise "blocked" when the maximum
submergence exceeds 0.7, "rerouted" on (0.2, 0.7], and "ok" at or
below 0.2. -/
theorem determine_status_spec (maxSub : ℚ) (pa : Bool) :
    (pa = false → determine_status maxSub pa = "blocked") ∧
    (pa = true → 7/10 < maxSub → determine_status maxSub pa = "blocked") ∧
    (pa = true → 2/10 < maxSub → maxSub ≤ 7/10 → determine_status maxSub pa = "rerouted") ∧
    (pa = true → maxSub ≤ 2/10 → determine_status maxSub pa = "ok") := by
  refine ⟨?_, ?_, ?_, ?_⟩
  · rintro rfl; rfl
  · rintro rfl h
    simp [determine_status, h]
  · rintro rfl h1 h2
    have h3 : ¬ (7/10 : ℚ) < maxSub := not_lt.mpr h2
    simp [determine_status, h1, h3]
  · rintro rfl h
    have h1 : ¬ (2/10 : ℚ) < maxSub := not_lt.mpr h
    have h2 : ¬ (7/10 : ℚ) < maxSub := not_lt.mpr (h.trans (by norm_num))
    simp [determine_status, h1, h2]

/-- C3: for positive base weight, `compute_weight` multiplies by 1 at
or below 0.2, by 2 on (0.2, 0.4], by 5 on (0.4, 0.7], and is infinite
above 0.7; a ratio exactly at a boundary takes the lower tier. -/
theorem compute_weight_tiers (b r : ℚ) (hb : 0 < b) :
    (r ≤ 2/10 → compute_weight b r = ((b * 1 : ℚ) : WithTop ℚ)) ∧
    (2/10 < r → r ≤ 4/10 → compute_weight b r = ((b * 2 : ℚ) : WithTop ℚ)) ∧
    (4/10 < r → r ≤ 7/10 → compute_weight b r = ((b * 5 : ℚ) : WithTop ℚ)) ∧
    (7/10 < r → compute_weight b r = ⊤) := by
  refine ⟨?_, ?_, ?_, ?_⟩
  · intro h
    have h1 : ¬ TIER_LOW < r := not_lt.mpr h
    have h2 : ¬ TIER_MODERATE < r := not_lt.mpr (h.trans (by norm_num [TIER_MODERATE]))
    have h3 : ¬ TIER_HIGH < r := not_lt.mpr (h.trans (by norm_num [TIER_HIGH]))
    simp [compute_weight, h1, h2, h3, MULTIPLIER_LOW]
  · intro hlo hhi
    have h1 : TIER_LOW < r := hlo
    have h2 : ¬ TIER_MODERATE < r := not_lt.mpr hhi
    have h3 : ¬ TIER_HIGH < r := not_lt.mpr (hhi.trans (by norm_num [TIER_MODERATE, TIER_HIGH]))
    simp [compute_weight, h1, h2, h3, MULTIPLIER_MODERATE]
  · intro hlo hhi
    have h2 : TIER_MODERATE < r := hlo
    have h3 : ¬ TIER_HIGH < r := not_lt.mpr hhi
    simp [compute_weight, h2, h3, MULTIPLIER_HIGH]
  · intro h
    simp [compute_weight, TIER_HIGH, h, MULTIPLIER_CLOSED]

/-- Witness for C3 at base weight 2, ratio 0.3 (tier ×2) and at base
weight 1, ratio 0.8 (closed). -/
theorem compute_weight_tiers_witness :
    compute_weight 2 (3/10) = ((2 * 2 : ℚ) : WithTop ℚ) ∧ compute_weight 1 (8/10) = ⊤ :=
  ⟨(compute_weight_tiers 2 (3/10) (by norm_num)).2.1 (by norm_num) (by norm_num),
   (compute_weight_tiers 1 (8/10) (by norm_num)).2.2.2 (by norm_num)⟩

/-- C4: a road is closed exactly when its risk label is "severe", and
both companion functions use the same strict boundary 0.7. -/
theorem closed_iff_severe (r : ℚ) :
    (is_road_closed r = true ↔ get_risk_level r = RISK_SEVERE) ∧
    (is_road_closed r = true ↔ 7/10 < r) ∧
    (get_risk_level r = RISK_SEVERE ↔ 7/10 < r) := by
  have hh : RISK_HIGH ≠ RISK_SEVERE := by decide
  have hm : RISK_MODERATE ≠ RISK_SEVERE := by decide
  have hl : RISK_LOW ≠ RISK_SEVERE := by decide
  unfold is_road_closed get_risk_level
  split_ifs with h1 h2 h3 <;> simp_all [TIER_HIGH]

/-- C1: whenever the path-finder reports a status other than "ok", the
orchestrator returns the fixed degraded response — status "blocked",
empty route, risk level "severe", arrival risk 1, all other metrics
0 — whatever the flood predictions are; the embedded handler is a
total function, so no exception propagates. -/
theorem pathfinder_failure_fixed_response {G : Type} (M : Shapely G)
    (a b : ℚ × ℚ) (floods : List (RRFlood G)) (osrm : OsrmResult)
    (h : osrm.status ≠ "ok") :
    handle_route_request M a b floods osrm =
      { status := "blocked", start := a, goal := b, route := [],
        risk_level := "severe", max_submergence := 0, exposure_length := 0,
        predicted_arrival_risk := 1 } := by
  simp [handle_route_request, h]

/-- Witness for C1: a failing path-finder result beside a severe flood
polygon still yields the fixed degraded response. -/
theorem pathfinder_failure_fixed_response_witness :
    handle_route_request unitShapely (0, 0) (1, 1)
        [{ geometry := some (), submergence := some (9/10) }]
        { status := "error", route := [(0, 0), (1, 1)] } =
      { status := "blocked", start := (0, 0), goal := (1, 1), route := [],
        risk_level := "severe", max_submergence := 0, exposure_length := 0,
        predicted_arrival_risk := 1 } :=
  pathfinder_failure_fixed_response unitShapely (0, 0) (1, 1) _ _ (by decide)

end FloodWatch
